import Mathlib

/-!
Shallow embedding of the `grafana` package of junwangustc/grafanaclient
(src/grafana/api.go): the dashboard document model with its default
constructors, and the session/transport layer modelled as explicit
state passing over an abstract network world.
-/

namespace Grafana

/-- Stand-in for a dynamic (interface-typed) Go value.  The library's own
constructors only ever store `null` in these fields; decoded responses may
hold arbitrary values, modelled by `str`. -/
inductive GoAny where
  | null
  | str (s : String)
deriving DecidableEq, Repr

/-- `GrafanaError` (api.go lines 21-24). -/
structure GrafanaError where
  Code : Int
  Description : String
deriving DecidableEq, Repr

/-- `GrafanaMessage` (api.go lines 27-29): the JSON error envelope. -/
structure GrafanaMessage where
  Message : String
deriving DecidableEq, Repr

/-- `Meta` (api.go lines 46-53). -/
structure Meta where
  Created : String
  Expires : String
  IsHome : Bool
  IsSnapshot : Bool
  IsStarred : Bool
  Slug : String
deriving DecidableEq, Repr

/-- `Time` (api.go lines 85-88). -/
structure Time where
  From : String
  To : String
deriving DecidableEq, Repr

/-- `Timepicker` (api.go lines 89-92). -/
structure Timepicker where
  RefreshIntervals : List String
  TimeOptions : List String
deriving DecidableEq, Repr

/-- `Legend` (api.go lines 204-212). -/
structure Legend where
  Avg : Bool
  Current : Bool
  Max : Bool
  Min : Bool
  Show : Bool
  Total : Bool
  Values : Bool
deriving DecidableEq, Repr

/-- The anonymous `params`/`type` struct used in `Target.GroupBy` and
`Target.Select` (api.go lines 228-231, 238-241). -/
structure QueryPart where
  Params : List String
  Type' : String
deriving DecidableEq, Repr

/-- `Target` (api.go lines 226-243). -/
structure Target where
  DsType : String
  GroupBy : List QueryPart
  Measurement : String
  Policy : String
  Query : String
  RawQuery : Bool
  RefID : String
  ResultFormat : String
  Select : List (List QueryPart)
  Tags : List GoAny
deriving DecidableEq, Repr

/-- `Tooltip` (api.go lines 258-262). -/
structure Tooltip where
  Shared : Bool
  Sort' : Int
  ValueType : String
deriving DecidableEq, Repr

/-- `Xaxis` (api.go lines 272-277). -/
structure Xaxis where
  Mode : String
  Name : GoAny
  Show : Bool
  Values : List GoAny
deriving DecidableEq, Repr

/-- `Yaxes` (api.go lines 288-295). -/
structure Yaxes where
  Format : String
  Label : GoAny
  LogBase : Int
  Max : GoAny
  Min : GoAny
  Show : Bool
deriving DecidableEq, Repr

/-- `Panel` (api.go lines 144-172).  `AliasColors` is an empty struct in
the source, embedded as `Unit`. -/
structure Panel where
  AliasColors : Unit
  Bars : Bool
  Datasource : GoAny
  Fill : Int
  ID : Int
  Legend : Legend
  Lines : Bool
  Linewidth : Int
  Links : List GoAny
  NullPointMode : String
  Percentage : Bool
  Pointradius : Int
  Points : Bool
  Renderer : String
  SeriesOverrides : List GoAny
  Span : Int
  Stack : Bool
  SteppedLine : Bool
  Targets : List Target
  Thresholds : List GoAny
  TimeFrom : GoAny
  TimeShift : GoAny
  Title : String
  Tooltip : Tooltip
  Type' : String
  Xaxis : Xaxis
  Yaxes : List Yaxes
deriving DecidableEq, Repr

/-- `Row` (api.go lines 114-124). -/
structure Row where
  Collapse : Bool
  Height : String
  Panels : List Panel
  Repeat : GoAny
  RepeatIteration : GoAny
  RepeatRowID : GoAny
  ShowTitle : Bool
  Title : String
  TitleSize : String
deriving DecidableEq, Repr

/-- The anonymous `current` struct inside `Template` (api.go lines 318-322). -/
structure TemplateCurrent where
  Tags : List GoAny
  Text : String
  Value : GoAny
deriving DecidableEq, Repr

/-- The anonymous `options` entry struct inside `Template` (api.go
lines 329-333). -/
structure TemplateOption where
  Selected : Bool
  Text : String
  Value : String
deriving DecidableEq, Repr

/-- `Template` (api.go lines 317-340). -/
structure Template where
  Current : TemplateCurrent
  Datasource : String
  Hide : Int
  IncludeAll : Bool
  Label : String
  Multi : Bool
  Name : String
  Options : List TemplateOption
  Query : String
  Refresh : Int
  Regex : String
  Sort' : Int
  Type' : String
  UseTags : Bool
deriving DecidableEq, Repr

/-- `Templating` (api.go lines 75-77). -/
structure Templating where
  List : List Template
deriving DecidableEq, Repr

/-- `Dashboard` (api.go lines 56-73). -/
structure Dashboard where
  Editable : Bool
  GnetID : GoAny
  GraphTooltip : Int
  HideControls : Bool
  ID : Int
  Links : List GoAny
  Rows : List Row
  SchemaVersion : Int
  Style : String
  Tags : List GoAny
  Templating : Templating
  Time : Time
  Timepicker : Timepicker
  Timezone : String
  Title : String
  Version : Int
deriving DecidableEq, Repr

/-- `DashboardResult` (api.go lines 40-43). -/
structure DashboardResult where
  Meta : Meta
  Model : Dashboard
deriving DecidableEq, Repr

/-- `UserInfo` (api.go lines 312-316). -/
structure UserInfo where
  User : String
  Email : String
  Password : String
deriving DecidableEq, Repr

/-- `GetDefaultLegend` (api.go lines 214-224). -/
def GetDefaultLegend : Legend :=
  { Avg := false
    Current := false
    Max := false
    Min := false
    Show := true
    Total := false
    Values := false }

/-- `GetDefaultTargets` (api.go lines 245-256).  The fields the source
leaves unset (`GroupBy`, `Measurement`, `Select`, `Tags`) carry Go zero
values. -/
def GetDefaultTargets (influxql : String) : List Target :=
  [{ DsType := "influxdb"
     GroupBy := []
     Measurement := ""
     Policy := "default"
     Query := influxql
     RawQuery := true
     RefID := "A"
     ResultFormat := "time_series"
     Select := []
     Tags := [] }]

/-- `GetDefaultToolTip` (api.go lines 264-270). -/
def GetDefaultToolTip : Tooltip :=
  { Shared := true
    Sort' := 0
    ValueType := "individual" }

/-- `GetDefaultXaxis` (api.go lines 279-286). -/
def GetDefaultXaxis : Xaxis :=
  { Mode := "time"
    Name := GoAny.null
    Show := true
    Values := [] }

/-- `GetDefaultYaxes` (api.go lines 297-310): two identical default axes. -/
def GetDefaultYaxes : List Yaxes :=
  let yax : Yaxes :=
    { Format := "short"
      Label := GoAny.null
      LogBase := 1
      Max := GoAny.null
      Min := GoAny.null
      Show := true }
  [yax, yax]

/-- `GetDefaultPanel` (api.go lines 174-202).  `ID` is left at its Go zero
value. -/
def GetDefaultPanel (title : String) (influxql : String) : Panel :=
  { AliasColors := ()
    Bars := false
    Datasource := GoAny.null
    Fill := 1
    ID := 0
    Legend := GetDefaultLegend
    Lines := true
    Linewidth := 1
    Links := []
    NullPointMode := "null"
    Percentage := false
    Pointradius := 5
    Points := false
    Renderer := "flot"
    SeriesOverrides := []
    Span := 12
    Stack := false
    SteppedLine := false
    Targets := GetDefaultTargets influxql
    Thresholds := []
    TimeFrom := GoAny.null
    TimeShift := GoAny.null
    Title := title
    Tooltip := GetDefaultToolTip
    Type' := "graph"
    Xaxis := GetDefaultXaxis
    Yaxes := GetDefaultYaxes }

/-- `GetDefaultRow` (api.go lines 127-142): one row holding exactly one
default panel. -/
def GetDefaultRow (panelTitle : String) (influxql : String) : Row :=
  { Collapse := false
    Height := "250px"
    Panels := [GetDefaultPanel panelTitle influxql]
    Repeat := GoAny.null
    RepeatIteration := GoAny.null
    RepeatRowID := GoAny.null
    ShowTitle := false
    Title := ""
    TitleSize := "h6" }

/-- `GetDefaultTemplate` (api.go lines 349-363).  Note the source writes
two spaces between WITH and KEY in the query string.  `Current`,
`Options` and `Regex` are left at Go zero values. -/
def GetDefaultTemplate (tagName : String) (measurementName : String)
    (datasource : String) : Template :=
  { Current := { Tags := [], Text := "", Value := GoAny.null }
    Datasource := datasource
    Hide := 0
    IncludeAll := false
    Label := tagName
    Multi := true
    Name := tagName
    Options := []
    Query := "SHOW TAG VALUES FROM \"" ++ measurementName ++ "\" WITH  KEY = \"" ++ tagName ++ "\""
    Refresh := 1
    Regex := ""
    Sort' := 0
    Type' := "query"
    UseTags := false }

/-- `GetDefaultTemplates` (api.go lines 342-348): the Go loop appends one
default template per tag name to an initially empty slice. -/
def GetDefaultTemplates (qls : List String) (measurementName : String)
    (datasource : String) : List Template :=
  qls.foldl (fun tpls ql => tpls ++ [GetDefaultTemplate ql measurementName datasource]) []

/-- `GetDefaultTemplating` (api.go lines 79-83). -/
def GetDefaultTemplating (tagNames : List String) (measurementName : String)
    (datasource : String) : Templating :=
  { List := GetDefaultTemplates tagNames measurementName datasource }

/-- `GetDefaultDashBoard` (api.go lines 94-112).  `ID` is left at its Go
zero value; `Templating.List` is nil. -/
def GetDefaultDashBoard (dashboardTitle : String) : Dashboard :=
  { Editable := true
    GnetID := GoAny.null
    GraphTooltip := 0
    HideControls := false
    ID := 0
    Links := []
    Rows := []
    SchemaVersion := 14
    Style := "dark"
    Tags := []
    Templating := { List := [] }
    Time := { From := "now-6h", To := "now" }
    Timepicker :=
      { RefreshIntervals := ["5s", "10s", "30s", "1m", "5m", "15m", "30m", "1h", "2h", "1d"]
        TimeOptions := ["5m", "15m", "1h", "6h", "12h", "24h", "2d", "4d", "7d", "30d"] }
    Timezone := "browser"
    Title := dashboardTitle
    Version := 1 }

/-- One HTTP request as built by `httpRequest` (api.go lines 397-398):
method, url, and the optional request body. -/
structure Request where
  method : String
  url : String
  body : Option String
deriving DecidableEq, Repr

/-- The outcome of handing one request to the Go HTTP client
(`s.client.Do(request)`, api.go line 399): either the call cannot be
dispatched at all (the client returns an error), or a response arrives
with a status code and a body. -/
inductive HttpOutcome where
  | dispatchFailure
  | response (status : Int) (body : String)
deriving DecidableEq, Repr

/-- The error interface value a session operation can return: either a
`GrafanaError` produced by `httpRequest`, or an error from a JSON
`Decode` call. -/
inductive GoError where
  | grafana (e : GrafanaError)
  | jsonDecode (msg : String)
deriving DecidableEq, Repr

/-- Abstract model of everything outside the library's own code: the
network (what `client.Do` yields for each request) and the Go standard
JSON library.
`decodeMessage` models `json.Decoder.Decode` into a `GrafanaMessage`
(api.go lines 405-407): `some m` is a successful decode yielding message
`m`; `none` is a failed decode, after which the zero-valued struct leaves
`Message` empty.
`decodeDashboard` models `json.Decoder.Decode` into a `DashboardResult`
(api.go lines 452-453), returning the (possibly partially filled) value
together with an optional decode-error message.
`marshalUserInfo` models `json.Marshal` of a `UserInfo` (api.go
line 390). -/
structure World where
  respond : Request → HttpOutcome
  decodeMessage : String → Option String
  decodeDashboard : String → DashboardResult × Option String
  marshalUserInfo : UserInfo → String

/-- `Session` (api.go lines 365-370).  The `client` field (cookie jar,
timeout, TLS policy) is the HTTP machinery modelled by `World`. -/
structure Session where
  User : String
  Password : String
  url : String
deriving DecidableEq, Repr

/-- The Go zero value of `Meta`. -/
def zeroMeta : Meta :=
  { Created := "", Expires := "", IsHome := false, IsSnapshot := false
    IsStarred := false, Slug := "" }

/-- The Go zero value of `Dashboard` (the value `GetDashboard` returns
alongside an error before any decoding has happened). -/
def zeroDashboard : Dashboard :=
  { Editable := false
    GnetID := GoAny.null
    GraphTooltip := 0
    HideControls := false
    ID := 0
    Links := []
    Rows := []
    SchemaVersion := 0
    Style := ""
    Tags := []
    Templating := { List := [] }
    Time := { From := "", To := "" }
    Timepicker := { RefreshIntervals := [], TimeOptions := [] }
    Timezone := ""
    Title := ""
    Version := 0 }

/-- The Go zero value of `DashboardResult`. -/
def zeroDashboardResult : DashboardResult :=
  { Meta := zeroMeta, Model := zeroDashboard }

/-- `Session.httpRequest` (api.go lines 396-413).  Besides the Go result
pair (success body or `GrafanaError`), the model returns the list of
requests handed to the HTTP client during the call.
On a dispatch failure the error is `Code = 0` with the fixed local
description (line 401).  On a non-200 status the body is decoded
best-effort into a `GrafanaMessage` whose `Message` stays empty when the
decode fails, and the error carries the status code and that message
(lines 404-409).  On a 200 response the body is returned (lines
411-412). -/
def Session.httpRequest (s : Session) (w : World) (method : String)
    (url : String) (body : Option String) :
    Except GrafanaError String × List Request :=
  match w.respond { method := method, url := url, body := body } with
  | HttpOutcome.dispatchFailure =>
      (Except.error { Code := 0, Description := "Unable to perform the http request" },
        [{ method := method, url := url, body := body }])
  | HttpOutcome.response status rbody =>
      if status ≠ 200 then
        (Except.error { Code := status, Description := (w.decodeMessage rbody).getD "" },
          [{ method := method, url := url, body := body }])
      else
        (Except.ok rbody, [{ method := method, url := url, body := body }])

/-- The `UserInfo` literal built by `Login` (api.go line 389): only
`User` and `Password` are populated; `Email` is left at its zero
value. -/
def loginUserInfo (s : Session) : UserInfo :=
  { User := s.User, Email := "", Password := s.Password }

/-- The field list of the JSON object `json.Marshal` produces for a
`UserInfo`, in struct order, keyed by the json tags of api.go
lines 313-315 (none carries omitempty, so all three fields always
appear). -/
def userInfoFields (u : UserInfo) : List (String × String) :=
  [("user", u.User), ("email", u.Email), ("password", u.Password)]

/-- `Session.Login` (api.go lines 387-395): POSTs the marshalled
credentials to `url ++ "/login"` and returns `httpRequest`'s error, if
any. -/
def Session.Login (s : Session) (w : World) : Option GrafanaError × List Request :=
  match s.httpRequest w "POST" (s.url ++ "/login")
      (some (w.marshalUserInfo (loginUserInfo s))) with
  | (Except.error e, t) => (some e, t)
  | (Except.ok _, t) => (none, t)

/-- `Session.CreateDashboard` (api.go lines 418-421): purely local. -/
def Session.CreateDashboard (s : Session) (dashboardName : String) : Dashboard :=
  GetDefaultDashBoard dashboardName

/-- `Session.AddRowPanel` (api.go lines 422-425): appends one default row
to the dashboard's rows. -/
def Session.AddRowPanel (s : Session) (db : Dashboard)
    (panelTitle : String) (influxql : String) : Dashboard :=
  { db with Rows := db.Rows ++ [GetDefaultRow panelTitle influxql] }

/-- `Session.AddTemplating` (api.go lines 427-430): overwrites the
dashboard's templating block with freshly generated templates. -/
def Session.AddTemplating (s : Session) (db : Dashboard)
    (tagNames : List String) (measurementName : String)
    (datasource : String) : Dashboard :=
  { db with Templating := GetDefaultTemplating tagNames measurementName datasource }

/-- `Session.GetDashboard` (api.go lines 446-455): GETs the dashboard by
name; a transport error is returned as-is with the zero-valued result
(lines 449-451); otherwise the body is decoded and any decode error is
returned alongside the decoded value (lines 452-454). -/
def Session.GetDashboard (s : Session) (w : World) (name : String) :
    (DashboardResult × Option GoError) × List Request :=
  match s.httpRequest w "GET" (s.url ++ "/api/dashboards/db/" ++ name) none with
  | (Except.error e, t) => ((zeroDashboardResult, some (GoError.grafana e)), t)
  | (Except.ok body, t) =>
      (((w.decodeDashboard body).1,
        ((w.decodeDashboard body).2).map GoError.jsonDecode), t)

/-- `Session.DeleteDashBoard` (api.go lines 456-467): first resolves the
slug via `GetDashboard`; on lookup error returns that error unchanged
(lines 458-460); otherwise DELETEs by slug and returns the transport
result (lines 461-464). -/
def Session.DeleteDashBoard (s : Session) (w : World) (dashBoardName : String) :
    Option GoError × List Request :=
  match s.GetDashboard w dashBoardName with
  | ((_, some e), t) => (some e, t)
  | ((dashRes, none), t) =>
      match s.httpRequest w "DELETE"
          (s.url ++ "/api/dashboards/db/" ++ dashRes.Meta.Slug) none with
      | (Except.error e, t2) => (some (GoError.grafana e), t ++ t2)
      | (Except.ok _, t2) => (none, t ++ t2)

/-- A session used to instantiate theorems at concrete inputs. -/
def sessA : Session :=
  { User := "admin", Password := "admin", url := "http://h" }

/-- A world in which every request fails to dispatch. -/
def failWorld : World :=
  { respond := fun _ => HttpOutcome.dispatchFailure
    decodeMessage := fun _ => none
    decodeDashboard := fun _ => (zeroDashboardResult, none)
    marshalUserInfo := fun _ => "" }

/-- A world in which every request draws a 409 response whose body decodes
to the message conflict. -/
def conflictWorld : World :=
  { respond := fun _ => HttpOutcome.response 409 "b"
    decodeMessage := fun _ => some "conflict"
    decodeDashboard := fun _ => (zeroDashboardResult, none)
    marshalUserInfo := fun _ => "" }

/-- `httpRequest` hands exactly one request, the one it builds from its
arguments, to the HTTP client. -/
theorem httpRequest_trace (s : Session) (w : World) (method : String)
    (url : String) (body : Option String) :
    (s.httpRequest w method url body).2 =
      [{ method := method, url := url, body := body }] := by
  unfold Session.httpRequest
  cases w.respond { method := method, url := url, body := body } with
  | dispatchFailure => rfl
  | response status rbody =>
      dsimp only
      split <;> rfl

/-- `GetDashboard` issues exactly one GET request, to the by-name
endpoint. -/
theorem getDashboard_trace (s : Session) (w : World) (name : String) :
    (s.GetDashboard w name).2 =
      [{ method := "GET", url := s.url ++ "/api/dashboards/db/" ++ name,
         body := none }] := by
  have ht := httpRequest_trace s w "GET" (s.url ++ "/api/dashboards/db/" ++ name) none
  unfold Session.GetDashboard
  rcases hr : s.httpRequest w "GET" (s.url ++ "/api/dashboards/db/" ++ name) none with ⟨res, t⟩
  rw [hr] at ht
  cases res <;> simpa using ht

/-- Folding append-of-singleton over a list builds the mapped list. -/
theorem foldl_append_singleton {α β : Type} (f : α → β) (l : List α)
    (acc : List β) :
    l.foldl (fun a x => a ++ [f x]) acc = acc ++ l.map f := by
  induction l generalizing acc with
  | nil => simp
  | cons x xs ih => simp [ih]

/-- The Go append loop of `GetDefaultTemplates` produces one default
template per tag name, in order. -/
theorem getDefaultTemplates_eq_map (qls : List String) (m d : String) :
    GetDefaultTemplates qls m d =
      qls.map (fun n => GetDefaultTemplate n m d) := by
  simpa using foldl_append_singleton (fun n => GetDefaultTemplate n m d) qls []

/-- C1 counterexample: at tag name host, measurement cpu, datasource ds,
the generated query is not the claimed single-space string
SHOW TAG VALUES FROM "cpu" WITH KEY = "host" — the source puts two spaces
between WITH and KEY. -/
theorem getDefaultTemplate_query_not_single_space :
    ¬ ((GetDefaultTemplate "host" "cpu" "ds").Query =
        "SHOW TAG VALUES FROM \"cpu\" WITH KEY = \"host\"") := by
  decide

/-- C1 (amended): for every tag name n, measurement m and datasource d,
the default template's Query is exactly
SHOW TAG VALUES FROM "m" WITH  KEY = "n" — with two spaces between WITH
and KEY — and its Name and Label equal n, Multi is true, IncludeAll is
false, and its type is query. -/
theorem getDefaultTemplate_spec (n m d : String) :
    (GetDefaultTemplate n m d).Query =
        "SHOW TAG VALUES FROM \"" ++ m ++ "\" WITH  KEY = \"" ++ n ++ "\"" ∧
    (GetDefaultTemplate n m d).Name = n ∧
    (GetDefaultTemplate n m d).Label = n ∧
    (GetDefaultTemplate n m d).Multi = true ∧
    (GetDefaultTemplate n m d).IncludeAll = false ∧
    (GetDefaultTemplate n m d).Type' = "query" :=
  ⟨rfl, rfl, rfl, rfl, rfl, rfl⟩

/-- C2: when the `GetDashboard` lookup inside `DeleteDashBoard` returns an
error, `DeleteDashBoard` returns exactly that error, its request trace is
the lookup's trace, and no DELETE request is issued (every issued request
is the lookup's GET). -/
theorem deleteDashBoard_propagates_lookup_error (s : Session) (w : World)
    (x : String) (e : GoError)
    (h : ((s.GetDashboard w x).1).2 = some e) :
    (s.DeleteDashBoard w x).1 = some e ∧
    (s.DeleteDashBoard w x).2 = (s.GetDashboard w x).2 ∧
    ∀ r ∈ (s.DeleteDashBoard w x).2, r.method = "GET" := by
  have ht := getDashboard_trace s w x
  unfold Session.DeleteDashBoard
  rcases hg : s.GetDashboard w x with ⟨⟨res, err⟩, t⟩
  rw [hg] at h ht
  simp only at h ht
  subst h
  subst ht
  refine ⟨rfl, rfl, ?_⟩
  intro r hr
  simp only [List.mem_singleton] at hr
  subst hr
  rfl

/-- C2 witness: in a world where every dispatch fails, the lookup inside
`DeleteDashBoard` fails and the deletion propagates that error without
issuing a DELETE. -/
theorem deleteDashBoard_propagates_lookup_error_witness :
    ((sessA.GetDashboard failWorld "x").1).2 =
        some (GoError.grafana { Code := 0, Description := "Unable to perform the http request" }) ∧
    ((sessA.DeleteDashBoard failWorld "x").1 =
        some (GoError.grafana { Code := 0, Description := "Unable to perform the http request" }) ∧
      (sessA.DeleteDashBoard failWorld "x").2 = (sessA.GetDashboard failWorld "x").2 ∧
      ∀ r ∈ (sessA.DeleteDashBoard failWorld "x").2, r.method = "GET") := by
  have h : ((sessA.GetDashboard failWorld "x").1).2 =
      some (GoError.grafana { Code := 0, Description := "Unable to perform the http request" }) := rfl
  exact ⟨h, deleteDashBoard_propagates_lookup_error sessA failWorld "x" _ h⟩

/-- C3: on a response with a non-200 status, `httpRequest` errors with
Code equal to the status and Description equal to the message decoded
from the body's message envelope, or the empty string when that decode
fails. -/
theorem httpRequest_non200_error (s : Session) (w : World) (method : String)
    (url : String) (body : Option String) (status : Int) (rbody : String)
    (hresp : w.respond { method := method, url := url, body := body } =
        HttpOutcome.response status rbody)
    (hst : status ≠ 200) :
    ∃ ge, (s.httpRequest w method url body).1 = Except.error ge ∧
      ge.Code = status ∧
      (∀ m, w.decodeMessage rbody = some m → ge.Description = m) ∧
      (w.decodeMessage rbody = none → ge.Description = "") := by
  refine ⟨{ Code := status, Description := (w.decodeMessage rbody).getD "" }, ?_, rfl, ?_, ?_⟩
  · unfold Session.httpRequest
    rw [hresp]
    dsimp only
    rw [if_pos hst]
  · intro m hm
    simp [hm]
  · intro hm
    simp [hm]

/-- C3 witness: a 409 response whose body decodes to the message conflict
yields an error with code 409 and description conflict. -/
theorem httpRequest_non200_error_witness :
    conflictWorld.respond { method := "POST", url := "u", body := none } =
        HttpOutcome.response 409 "b" ∧
    (409 : Int) ≠ 200 ∧
    ∃ ge, (sessA.httpRequest conflictWorld "POST" "u" none).1 = Except.error ge ∧
      ge.Code = 409 ∧
      (∀ m, conflictWorld.decodeMessage "b" = some m → ge.Description = m) ∧
      (conflictWorld.decodeMessage "b" = none → ge.Description = "") :=
  ⟨rfl, by decide,
    httpRequest_non200_error sessA conflictWorld "POST" "u" none 409 "b" rfl (by decide)⟩

/-- C4: a dispatch failure makes `httpRequest` return the fixed
code-zero local error; conversely, any returned error with nonzero code
comes from a received response whose non-200 status is that code. -/
theorem httpRequest_dispatch_error_code_zero (s : Session) (w : World)
    (method : String) (url : String) (body : Option String) :
    (w.respond { method := method, url := url, body := body } =
          HttpOutcome.dispatchFailure →
        (s.httpRequest w method url body).1 =
          Except.error { Code := 0, Description := "Unable to perform the http request" }) ∧
    (∀ ge, (s.httpRequest w method url body).1 = Except.error ge → ge.Code ≠ 0 →
        ∃ status rbody,
          w.respond { method := method, url := url, body := body } =
            HttpOutcome.response status rbody ∧
          status ≠ 200 ∧ ge.Code = status) := by
  constructor
  · intro h
    unfold Session.httpRequest
    rw [h]
  · intro ge hge hne
    unfold Session.httpRequest at hge
    rcases hr : w.respond { method := method, url := url, body := body } with _ | ⟨status, rbody⟩
    · rw [hr] at hge
      simp only [Except.error.injEq] at hge
      rw [← hge] at hne
      simp at hne
    · rw [hr] at hge
      dsimp only at hge
      by_cases hst : status ≠ 200
      · rw [if_pos hst] at hge
        simp only [Except.error.injEq] at hge
        exact ⟨status, rbody, rfl, hst, by rw [← hge]⟩
      · rw [if_neg hst] at hge
        exact absurd hge (by simp)

/-- C4 witness: in a world where every dispatch fails, the request errors
with code 0 and the fixed local description. -/
theorem httpRequest_dispatch_error_code_zero_witness :
    (sessA.httpRequest failWorld "GET" "u" none).1 =
      Except.error { Code := 0, Description := "Unable to perform the http request" } :=
  (httpRequest_dispatch_error_code_zero sessA failWorld "GET" "u" none).1 rfl

/-- C5: `AddRowPanel` appends exactly one row: the result has one more
row, the original rows are an unchanged prefix in order, and the last row
is the default row for the given panel title and query. -/
theorem addRowPanel_append_only (s : Session) (d : Dashboard) (p q : String) :
    (s.AddRowPanel d p q).Rows.length = d.Rows.length + 1 ∧
    (s.AddRowPanel d p q).Rows.take d.Rows.length = d.Rows ∧
    (s.AddRowPanel d p q).Rows.getLast? = some (GetDefaultRow p q) := by
  refine ⟨?_, ?_, ?_⟩ <;>
    simp [Session.AddRowPanel, List.take_left, List.getLast?_concat]

/-- C6: `AddTemplating` replaces the templating block wholesale — after
two successive calls only the second call's variables remain, one default
template per tag name of the second call, in order. -/
theorem addTemplating_replaces_wholesale (s1 s2 : Session) (d : Dashboard)
    (tags1 : List String) (m1 ds1 : String)
    (tags2 : List String) (m2 ds2 : String) :
    ((s2.AddTemplating (s1.AddTemplating d tags1 m1 ds1) tags2 m2 ds2).Templating).List =
      tags2.map (fun n => GetDefaultTemplate n m2 ds2) := by
  simp [Session.AddTemplating, GetDefaultTemplating, getDefaultTemplates_eq_map]

/-- C7: the default dashboard for a title t has Title t, no rows, schema
version 14, dark style, and the now-6h to now time range. -/
theorem getDefaultDashBoard_spec (t : String) :
    (GetDefaultDashBoard t).Title = t ∧
    (GetDefaultDashBoard t).Rows = [] ∧
    (GetDefaultDashBoard t).SchemaVersion = 14 ∧
    (GetDefaultDashBoard t).Style = "dark" ∧
    (GetDefaultDashBoard t).Time = { From := "now-6h", To := "now" } :=
  ⟨rfl, rfl, rfl, rfl, rfl⟩

/-- C8: the default row has exactly one panel, and that panel has exactly
one target, with reference identifier A and Query equal to the given
query. -/
theorem getDefaultRow_spec (p q : String) :
    ∃ pan, (GetDefaultRow p q).Panels = [pan] ∧
      ∃ tg, pan.Targets = [tg] ∧ tg.RefID = "A" ∧ tg.Query = q :=
  ⟨GetDefaultPanel p q, rfl,
    { DsType := "influxdb", GroupBy := [], Measurement := "", Policy := "default"
      Query := q, RawQuery := true, RefID := "A", ResultFormat := "time_series"
      Select := [], Tags := [] },
    rfl, rfl, rfl⟩

/-- C9: SchemaVersion and Version are 14 and 1 on every dashboard built
by `GetDefaultDashBoard`/`CreateDashboard`, and both fields are preserved
unchanged by `AddRowPanel` and `AddTemplating`. -/
theorem schemaVersion_version_invariant (s : Session) (t : String)
    (d : Dashboard) (p q : String) (tags : List String) (m ds : String) :
    ((GetDefaultDashBoard t).SchemaVersion = 14 ∧
      (GetDefaultDashBoard t).Version = 1) ∧
    ((s.CreateDashboard t).SchemaVersion = 14 ∧
      (s.CreateDashboard t).Version = 1) ∧
    ((s.AddRowPanel d p q).SchemaVersion = d.SchemaVersion ∧
      (s.AddRowPanel d p q).Version = d.Version) ∧
    ((s.AddTemplating d tags m ds).SchemaVersion = d.SchemaVersion ∧
      (s.AddTemplating d tags m ds).Version = d.Version) :=
  ⟨⟨rfl, rfl⟩, ⟨rfl, rfl⟩, ⟨rfl, rfl⟩, ⟨rfl, rfl⟩⟩

/-- C10: the login payload populates only user and password from the
session; its email field is always the empty string, and the marshalled
JSON object therefore carries an email field equal to the empty string.
The login call POSTs exactly that marshalled payload to the login
endpoint. -/
theorem login_email_always_empty (s : Session) (w : World) :
    (loginUserInfo s).Email = "" ∧
    (loginUserInfo s).User = s.User ∧
    (loginUserInfo s).Password = s.Password ∧
    (userInfoFields (loginUserInfo s)).lookup "email" = some "" ∧
    (s.Login w).2 =
      [{ method := "POST", url := s.url ++ "/login",
         body := some (w.marshalUserInfo (loginUserInfo s)) }] := by
  refine ⟨rfl, rfl, rfl, ?_, ?_⟩
  · simp [userInfoFields, loginUserInfo, List.lookup]
  · have ht := httpRequest_trace s w "POST" (s.url ++ "/login")
      (some (w.marshalUserInfo (loginUserInfo s)))
    unfold Session.Login
    rcases hr : s.httpRequest w "POST" (s.url ++ "/login")
        (some (w.marshalUserInfo (loginUserInfo s))) with ⟨res, t⟩
    rw [hr] at ht
    cases res <;> simpa using ht

end Grafana
